import Mathlib

/-!
Shallow embedding of `scripts/etl/openaq_etl.py` (OpenAQ ETL script).

Python floats are modelled as rationals (`ℚ`); `None` as `Option.none`;
exceptions of the `requests` layer as `Except String`; the external world
(HTTP responses of the OpenAQ API and of the Supabase REST API) as an
explicit environment record, since the script itself performs no
computation on them beyond what is embedded here.
-/

namespace OpenAQ

/-- The sort performed by the Python call to sorted(values), ascending. -/
def sorted_of (values : List ℚ) : List ℚ :=
  List.insertionSort (· ≤ ·) values

/-- The local trim_count of `_calculate_average`:
`max(1, len(sorted_values) // 20)`. -/
def trim_count_of (values : List ℚ) : Nat :=
  max 1 ((sorted_of values).length / 20)

/-- The local `trimmed` of `_calculate_average`:
`sorted_values[trim_count:-trim_count] if len(sorted_values) > 10 else sorted_values`.
The Python slice `l[t:-t]` is `(l.drop t).take (l.length - 2 * t)`
(empty when `2 * t ≥ l.length`, exactly as in Python). -/
def trimmed_of (values : List ℚ) : List ℚ :=
  if (sorted_of values).length > 10 then
    ((sorted_of values).drop (trim_count_of values)).take
      ((sorted_of values).length - 2 * trim_count_of values)
  else sorted_of values

/-- Model of `OpenAQETL._calculate_average`: `None` on empty input, else the mean of
the trimmed sorted values, `None` if the trim emptied the list. -/
def calculate_average (values : List ℚ) : Option ℚ :=
  if values = [] then none
  else
    let trimmed := trimmed_of values
    if trimmed = [] then none
    else some (trimmed.sum / (trimmed.length : ℚ))

/-- Length of the sorted copy equals the input length. -/
theorem sorted_of_length (values : List ℚ) :
    (sorted_of values).length = values.length :=
  (List.perm_insertionSort (· ≤ ·) values).length_eq

/-- The sorted copy is a permutation of the input. -/
theorem sorted_of_perm (values : List ℚ) : List.Perm (sorted_of values) values :=
  List.perm_insertionSort (· ≤ ·) values

/-- Arithmetic core fact: `2 * max 1 (n / 20) < n` whenever `n > 10`, so the trim never removes
everything on the long branch. -/
theorem two_trim_lt (n : Nat) (h : 10 < n) : 2 * max 1 (n / 20) < n := by
  omega

/-- On inputs longer than 10, `trimmed_of` has length `n - 2 * t`. -/
theorem trimmed_of_length (values : List ℚ) (h : 10 < values.length) :
    (trimmed_of values).length = values.length - 2 * trim_count_of values := by
  have hs : (sorted_of values).length = values.length := sorted_of_length values
  have ht : 2 * trim_count_of values < values.length := by
    have := two_trim_lt values.length h
    simpa [trim_count_of, hs] using this
  simp only [trimmed_of, hs, h, if_pos]
  rw [List.length_take, List.length_drop, hs]
  omega

/-- On inputs longer than 10, the trimmed list is nonempty. -/
theorem trimmed_of_ne_nil_of_long (values : List ℚ) (h : 10 < values.length) :
    trimmed_of values ≠ [] := by
  have hl := trimmed_of_length values h
  have ht : 2 * trim_count_of values < values.length := by
    have := two_trim_lt values.length h
    simpa [trim_count_of, sorted_of_length] using this
  intro hnil
  rw [hnil] at hl
  simp at hl
  omega

/-- On nonempty inputs of length at most 10, `trimmed_of` is the sorted copy. -/
theorem trimmed_of_short (values : List ℚ) (h : values.length ≤ 10) :
    trimmed_of values = sorted_of values := by
  have hn : ¬ 10 < values.length := by omega
  simp [trimmed_of, sorted_of_length, hn]

/-- Every element of `trimmed_of` is an input value. -/
theorem trimmed_of_subset (values : List ℚ) :
    ∀ v ∈ trimmed_of values, v ∈ values := by
  intro v hv
  have hsort : v ∈ sorted_of values := by
    unfold trimmed_of at hv
    split at hv
    · exact List.mem_of_mem_drop (List.mem_of_mem_take hv)
    · exact hv
  exact (sorted_of_perm values).mem_iff.mp hsort

/-- The per-country result dictionary of `fetch_country_air_quality`:
an all-None dictionary of avg_pm25, avg_no2 and measurement_count (the count
field is initialised to 0 and never written again in the source). -/
structure AggregateResult where
  avg_pm25 : Option ℚ
  avg_no2 : Option ℚ
  measurement_count : Nat
deriving DecidableEq, Repr

/-- The external world seen by `fetch_country_air_quality`: for each country
code, what `_fetch_parameter_data` does for parameter pm25 and for no2 —
either it raises (`Except.error`, e.g. `raise_for_status` or a timeout) or
it returns the parsed list of numeric measurement values. -/
structure FetchEnv where
  pm25 : String → Except String (List ℚ)
  no2 : String → Except String (List ℚ)

/-- Model of `OpenAQETL.fetch_country_air_quality`: starts from an all-`None` result,
then for each parameter, inside its own `try/except`, fetches the data and —
only when the returned list is nonempty (`if pm25_data:`) — stores the
trimmed average. An exception of the fetch of one parameter is swallowed and
leaves that field `None`. -/
def fetch_country_air_quality (env : FetchEnv) (country_code : String) :
    AggregateResult :=
  let result : AggregateResult :=
    { avg_pm25 := none, avg_no2 := none, measurement_count := 0 }
  let result :=
    match env.pm25 country_code with
    | .ok pm25_data =>
      if pm25_data ≠ [] then
        { result with avg_pm25 := calculate_average pm25_data }
      else result
    | .error _ => result
  let result :=
    match env.no2 country_code with
    | .ok no2_data =>
      if no2_data ≠ [] then
        { result with avg_no2 := calculate_average no2_data }
      else result
    | .error _ => result
  result

/-- Python rounding round(x, 2) on the rational model: round `x * 100` to the
nearest integer, ties to even, and divide by 100. -/
def round_half_even (q : ℚ) : ℤ :=
  let f := ⌊q⌋
  if q - f < 1 / 2 then f
  else if q - f > 1 / 2 then f + 1
  else if f % 2 = 0 then f else f + 1

/-- Python rounding round(x, 2) for the payload fields of `update_supabase`. -/
def py_round2 (q : ℚ) : ℚ :=
  (round_half_even (q * 100) : ℚ) / 100

/-- The `update_data` dictionary built by `update_supabase` before the
timestamp is added: one key per non-`None` average, rounded to 2 decimals. -/
def update_data_of (a : AggregateResult) : List (String × ℚ) :=
  (match a.avg_pm25 with
   | some v => [("air_quality_pm25", py_round2 v)]
   | none => []) ++
  (match a.avg_no2 with
   | some v => [("air_quality_no2", py_round2 v)]
   | none => [])

/-- Model of `OpenAQETL.update_supabase`, up to the HTTP call: `none` when
`update_data` is empty (the early `return` that skips the PATCH), otherwise
the payload — the numeric fields together with the fresh `last_updated`
timestamp `now`. -/
def update_supabase_payload (a : AggregateResult) (now : String) :
    Option (List (String × ℚ) × String) :=
  let update_data := update_data_of a
  if update_data = [] then none
  else some (update_data, now)

/-- The `if response.status_code in [200, 201, 204]` test of
`update_supabase`: `true` exactly when the failure line (status code and
response body) is printed. -/
def update_error_logged (status : Nat) : Bool :=
  !(status == 200 || status == 201 || status == 204)

/-- The world seen by `run_etl`: the fetch responses plus, for each country,
what `requests.patch` does — raises (`Except.error`) or returns an HTTP
status code. -/
structure EtlEnv extends FetchEnv where
  update : String → Except String Nat

/-- Python truthiness of an optional float: `None` and `0.0` are falsy.
This is the test of run_etl on the two averages, where Python evaluates
the dictionary entries avg_pm25 and avg_no2 by truthiness
of `run_etl`. -/
def truthy : Option ℚ → Bool
  | none => false
  | some v => !(v == 0)

/-- Outcome of one iteration of the country loop of `run_etl`. -/
inductive CountryOutcome where
  | updated (status : Nat)
  | no_data
  | errored (msg : String)
deriving DecidableEq, Repr

/-- The body of the country loop of `run_etl`: fetch the averages; if at
least one is truthy, call `update_supabase` (which issues the PATCH and
never raises on a bad status — `errored` occurs only when the HTTP call
itself raises); otherwise take the `No data available` branch. -/
def process_country (env : EtlEnv) (country_code : String) : CountryOutcome :=
  let air_quality := fetch_country_air_quality env.toFetchEnv country_code
  if truthy air_quality.avg_pm25 || truthy air_quality.avg_no2 then
    match env.update country_code with
    | .ok status => .updated status
    | .error e => .errored e
  else .no_data

/-- One step of the `successful` / `failed` counters of `run_etl`:
`successful += 1` after `update_supabase` returns, `failed += 1` on the
no-data branch and in the country-level `except` handler. -/
def etl_step (env : EtlEnv) (acc : Nat × Nat) (country_code : String) :
    Nat × Nat :=
  match process_country env country_code with
  | .updated _ => (acc.1 + 1, acc.2)
  | .no_data => (acc.1, acc.2 + 1)
  | .errored _ => (acc.1, acc.2 + 1)

/-- Model of `OpenAQETL.run_etl` restricted to its observable summary: the final
`(successful, failed)` pair printed after the loop. -/
def run_etl (env : EtlEnv) (countries : List String) : Nat × Nat :=
  countries.foldl (etl_step env) (0, 0)

/-- Python truthiness of an optional string: `None` and the empty string are
falsy; the test in the constructor negates it for each secret. -/
def falsy_str : Option String → Bool
  | none => true
  | some s => s.isEmpty

/-- Model of `OpenAQETL.__init__`: reads the two secrets and raises `ValueError`
when either is falsy, before any network object is built. -/
def OpenAQETL_init (supabase_url supabase_key : Option String) :
    Except String (String × String) :=
  if falsy_str supabase_url || falsy_str supabase_key then
    .error "Missing SUPABASE_URL or SUPABASE_SERVICE_KEY environment variables"
  else .ok (supabase_url.getD "", supabase_key.getD "")

/-- Model of `main`: constructs the ETL object and runs the batch inside one
`try/except` that exits with code 1 on any exception. The `Bool` records
whether `run_etl` was ever entered — all network activity of the script
happens inside `run_etl`, so `false` means no network call was made.
The model of `run_etl` is total, as is the source loop (every per-country
exception is caught inside it), so the success path always exits 0. -/
def main_model (supabase_url supabase_key : Option String) (env : EtlEnv)
    (countries : List String) : Nat × Bool :=
  match OpenAQETL_init supabase_url supabase_key with
  | .error _ => (1, false)
  | .ok _ =>
    let _summary := run_etl env countries
    (0, true)

/-- The mean of a singleton list is its element. -/
theorem calculate_average_singleton (q : ℚ) : calculate_average [q] = some q := by
  have h : trimmed_of [q] = [q] := rfl
  simp [calculate_average, h]

/-- Counting a predicate and its negation over a list gives its length. -/
theorem countP_split (p : String → Bool) (l : List String) :
    l.countP p + l.countP (fun c => !p c) = l.length := by
  induction l with
  | nil => simp
  | cons c rest ih =>
    simp only [List.countP_cons, List.length_cons]
    cases hp : p c <;> simp <;> omega

/-- C3: on inputs of length > 10, `_calculate_average` sorts ascending,
removes exactly `max 1 (n / 20)` elements from each end of the sorted list
and returns the arithmetic mean of the remainder; on
`[1, ..., 11]` it removes one element per end and returns 6. -/
theorem trimmed_mean_long :
    (∀ values : List ℚ, 10 < values.length →
      List.Sorted (· ≤ ·) (sorted_of values) ∧
      List.Perm (sorted_of values) values ∧
      (∃ front back, sorted_of values = front ++ trimmed_of values ++ back ∧
        front.length = max 1 (values.length / 20) ∧
        back.length = max 1 (values.length / 20)) ∧
      calculate_average values =
        some ((trimmed_of values).sum / ((trimmed_of values).length : ℚ))) ∧
    calculate_average [1, 2, 3, 4, 5, 6, 7, 8, 9, 10, 11] = some 6 := by
  constructor
  · intro values h
    have hs : (sorted_of values).length = values.length := sorted_of_length values
    have ht2 : 2 * max 1 (values.length / 20) < values.length :=
      two_trim_lt values.length h
    have htc : trim_count_of values = max 1 (values.length / 20) := by
      simp [trim_count_of, hs]
    refine ⟨List.sorted_insertionSort (· ≤ ·) values, sorted_of_perm values, ?_, ?_⟩
    · refine ⟨(sorted_of values).take (trim_count_of values),
        ((sorted_of values).drop (trim_count_of values)).drop
          ((sorted_of values).length - 2 * trim_count_of values), ?_, ?_, ?_⟩
      · have hsplit1 := (List.take_append_drop (trim_count_of values)
          (sorted_of values)).symm
        have hsplit2 := (List.take_append_drop
          ((sorted_of values).length - 2 * trim_count_of values)
          ((sorted_of values).drop (trim_count_of values))).symm
        have htr : trimmed_of values =
            ((sorted_of values).drop (trim_count_of values)).take
              ((sorted_of values).length - 2 * trim_count_of values) := by
          simp only [trimmed_of, hs, h, if_pos]
        rw [htr, List.append_assoc, ← hsplit2, ← hsplit1]
      · rw [List.length_take, hs, htc]
        omega
      · rw [List.length_drop, List.length_drop, hs, htc]
        omega
    · have hne : values ≠ [] := by
        intro hnil
        rw [hnil] at h
        simp at h
      have htrne : trimmed_of values ≠ [] := trimmed_of_ne_nil_of_long values h
      simp [calculate_average, hne, htrne]
  · have h : trimmed_of [1, 2, 3, 4, 5, 6, 7, 8, 9, 10, 11] =
        [2, 3, 4, 5, 6, 7, 8, 9, 10] := rfl
    simp [calculate_average, h]
    norm_num

/-- Witness for C3 at the spec scenario list `[1, ..., 11]`. -/
theorem trimmed_mean_long_witness :
    List.Sorted (· ≤ ·) (sorted_of [1, 2, 3, 4, 5, 6, 7, 8, 9, 10, 11]) ∧
    List.Perm (sorted_of [1, 2, 3, 4, 5, 6, 7, 8, 9, 10, 11])
      [1, 2, 3, 4, 5, 6, 7, 8, 9, 10, 11] ∧
    (∃ front back, sorted_of [1, 2, 3, 4, 5, 6, 7, 8, 9, 10, 11] =
        front ++ trimmed_of [1, 2, 3, 4, 5, 6, 7, 8, 9, 10, 11] ++ back ∧
      front.length = max 1 (11 / 20) ∧ back.length = max 1 (11 / 20)) ∧
    calculate_average [1, 2, 3, 4, 5, 6, 7, 8, 9, 10, 11] =
      some ((trimmed_of [1, 2, 3, 4, 5, 6, 7, 8, 9, 10, 11]).sum /
        ((trimmed_of [1, 2, 3, 4, 5, 6, 7, 8, 9, 10, 11]).length : ℚ)) :=
  trimmed_mean_long.1 [1, 2, 3, 4, 5, 6, 7, 8, 9, 10, 11] (by norm_num)

/-- C6: on nonempty inputs of length at most 10, `_calculate_average`
returns the plain untrimmed arithmetic mean of all values. -/
theorem untrimmed_mean_short (values : List ℚ) (hne : values ≠ [])
    (hlen : values.length ≤ 10) :
    calculate_average values = some (values.sum / (values.length : ℚ)) := by
  have htr : trimmed_of values = sorted_of values := trimmed_of_short values hlen
  have hsum : (sorted_of values).sum = values.sum := (sorted_of_perm values).sum_eq
  have hlens : (sorted_of values).length = values.length := sorted_of_length values
  have hsne : sorted_of values ≠ [] := by
    intro hnil
    have := sorted_of_length values
    rw [hnil] at this
    exact hne (List.eq_nil_of_length_eq_zero this.symm)
  simp [calculate_average, hne, htr, hsne, hsum, hlens]

/-- Witness for C6 at `[3, 5]`: the untrimmed mean is 4. -/
theorem untrimmed_mean_short_witness :
    calculate_average [3, 5] = some (([3, 5] : List ℚ).sum / (2 : ℚ)) := by
  have h := untrimmed_mean_short [3, 5] (by simp) (by simp)
  simpa using h

/-- C7: `_calculate_average` is total and never divides by zero — the empty
list maps to `none`, any input whose trim leaves the empty list maps to
`none`, and a `some` result is only ever produced from a nonempty trimmed
list (positive denominator). -/
theorem aggregator_total_null_safe :
    calculate_average ([] : List ℚ) = none ∧
    (∀ values : List ℚ, trimmed_of values = [] → calculate_average values = none) ∧
    (∀ (values : List ℚ) (q : ℚ), calculate_average values = some q →
      0 < (trimmed_of values).length) := by
  refine ⟨rfl, ?_, ?_⟩
  · intro values htr
    by_cases hne : values = []
    · rw [hne]; rfl
    · simp [calculate_average, hne, htr]
  · intro values q hq
    by_cases hne : values = []
    · rw [hne] at hq
      simp [calculate_average] at hq
    · by_cases htr : trimmed_of values = []
      · simp [calculate_average, hne, htr] at hq
      · exact List.length_pos.mpr htr

/-- Witness for C7: the empty list and the singleton `[1]`. -/
theorem aggregator_total_null_safe_witness :
    calculate_average ([] : List ℚ) = none ∧ 0 < (trimmed_of [1]).length :=
  ⟨aggregator_total_null_safe.2.1 [] rfl,
   aggregator_total_null_safe.2.2 [1] 1 (calculate_average_singleton 1)⟩

/-- C10: `_calculate_average` returns `none` exactly on the empty list —
trimming can never empty a nonempty list, since `2 * max 1 (n / 20) < n`
whenever `n > 10`, so the post-trim empty check never fires. -/
theorem nonnull_on_nonempty (values : List ℚ) :
    calculate_average values = none ↔ values = [] := by
  constructor
  · intro hnone
    by_contra hne
    have hlenpos : 0 < values.length := List.length_pos.mpr hne
    by_cases hlong : 10 < values.length
    · have htrne := trimmed_of_ne_nil_of_long values hlong
      simp [calculate_average, hne, htrne] at hnone
    · have htr : trimmed_of values = sorted_of values :=
        trimmed_of_short values (by omega)
      have hsne : sorted_of values ≠ [] := by
        intro hnil
        have := sorted_of_length values
        rw [hnil] at this
        exact hne (List.eq_nil_of_length_eq_zero this.symm)
      simp [calculate_average, hne, htr, hsne] at hnone
  · intro h
    rw [h]
    rfl

/-- C5: when at least one average is non-null, `update_supabase` builds the
payload with exactly one key per non-null average, rounded to 2 decimals,
plus the `last_updated` timestamp; no key appears for a null average and no
other numeric key appears. -/
theorem payload_exact_fields (a : AggregateResult) (now : String)
    (h : a.avg_pm25.isSome ∨ a.avg_no2.isSome) :
    update_supabase_payload a now = some (update_data_of a, now) ∧
    (∀ v, a.avg_pm25 = some v →
      ("air_quality_pm25", py_round2 v) ∈ update_data_of a) ∧
    (∀ v, a.avg_no2 = some v →
      ("air_quality_no2", py_round2 v) ∈ update_data_of a) ∧
    (a.avg_pm25 = none → ∀ x, ("air_quality_pm25", x) ∉ update_data_of a) ∧
    (a.avg_no2 = none → ∀ x, ("air_quality_no2", x) ∉ update_data_of a) ∧
    (∀ kv ∈ update_data_of a,
      kv.1 = "air_quality_pm25" ∨ kv.1 = "air_quality_no2") := by
  have hne : update_data_of a ≠ [] := by
    rcases h with h | h
    · obtain ⟨v, hv⟩ := Option.isSome_iff_exists.mp h
      cases hn : a.avg_no2 <;> simp [update_data_of, hv, hn]
    · obtain ⟨v, hv⟩ := Option.isSome_iff_exists.mp h
      cases hp : a.avg_pm25 <;> simp [update_data_of, hv, hp]
  refine ⟨by simp [update_supabase_payload, hne], ?_, ?_, ?_, ?_, ?_⟩
  · intro v hv
    cases hn : a.avg_no2 <;> simp [update_data_of, hv, hn]
  · intro v hv
    cases hp : a.avg_pm25 <;> simp [update_data_of, hv, hp]
  · intro hp x
    cases hn : a.avg_no2 <;> simp [update_data_of, hp, hn]
  · intro hn x
    cases hp : a.avg_pm25 <;> simp [update_data_of, hn, hp]
  · intro kv hkv
    cases hp : a.avg_pm25 <;> cases hn : a.avg_no2 <;>
      simp [update_data_of, hp, hn] at hkv <;>
      first
      | (rcases hkv with hkv | hkv <;> simp [hkv])
      | simp [hkv]

/-- Witness for C5: a result with PM2.5 = 5/2 and no NO2 yields the payload
with exactly the PM2.5 key and the timestamp. -/
theorem payload_exact_fields_witness :
    update_supabase_payload
        { avg_pm25 := some (5 / 2), avg_no2 := none, measurement_count := 0 }
        "2024-01-01T00:00:00" =
      some (update_data_of
        { avg_pm25 := some (5 / 2), avg_no2 := none, measurement_count := 0 },
        "2024-01-01T00:00:00") ∧
    ("air_quality_pm25", py_round2 (5 / 2)) ∈ update_data_of
      { avg_pm25 := some (5 / 2), avg_no2 := none, measurement_count := 0 } := by
  have h := payload_exact_fields
    { avg_pm25 := some (5 / 2), avg_no2 := none, measurement_count := 0 }
    "2024-01-01T00:00:00" (Or.inl rfl)
  exact ⟨h.1, h.2.1 (5 / 2) rfl⟩

/-- An optional average is either absent or a non-negative rational. -/
def opt_nonneg : Option ℚ → Prop
  | none => True
  | some q => 0 ≤ q

/-- If every input value is non-negative, so is the trimmed average. -/
theorem calculate_average_nonneg (values : List ℚ)
    (h : ∀ v ∈ values, 0 ≤ v) : opt_nonneg (calculate_average values) := by
  by_cases hne : values = []
  · rw [hne]; trivial
  · by_cases htr : trimmed_of values = []
    · simp [calculate_average, hne, htr, opt_nonneg]
    · have hs : calculate_average values =
          some ((trimmed_of values).sum / ((trimmed_of values).length : ℚ)) := by
        simp [calculate_average, hne, htr]
      rw [hs]
      show 0 ≤ (trimmed_of values).sum / ((trimmed_of values).length : ℚ)
      apply div_nonneg
      · exact List.sum_nonneg fun v hv => h v (trimmed_of_subset values v hv)
      · exact Nat.cast_nonneg _

/-- The OpenAQ API, off-path for the spec invariant: a single negative
measurement value flows through unfiltered. -/
def env_negative : FetchEnv where
  pm25 := fun _ => .ok [-5]
  no2 := fun _ => .error "timeout"

/-- C8 counterexample: the code never filters negative measurement values,
so a fetched value of −5 yields `avg_pm25 = −5`, a non-null negative
average — the claimed invariant fails. -/
theorem negative_average_cex :
    (fetch_country_air_quality env_negative "DEU").avg_pm25 = some (-5) ∧
    ¬ (0 : ℚ) ≤ -5 := by
  constructor
  · have h : calculate_average [-5] = some (-5) := calculate_average_singleton (-5)
    simp [fetch_country_air_quality, env_negative, h]
  · norm_num

/-- The PM2.5 field of the fetch result, as a function of the pm25 response
alone: `None` on an exception or an empty list, else the trimmed average. -/
theorem fetch_avg_pm25 (env : FetchEnv) (country_code : String) :
    (fetch_country_air_quality env country_code).avg_pm25 =
      (match env.pm25 country_code with
       | .ok data => if data = [] then none else calculate_average data
       | .error _ => none) := by
  unfold fetch_country_air_quality
  cases hp : env.pm25 country_code with
  | ok pdata =>
    cases hn : env.no2 country_code with
    | ok ndata =>
      by_cases hpe : pdata = [] <;> by_cases hne : ndata = [] <;>
        simp [hpe, hne]
    | error e => by_cases hpe : pdata = [] <;> simp [hpe]
  | error e =>
    cases hn : env.no2 country_code with
    | ok ndata => by_cases hne : ndata = [] <;> simp [hne]
    | error e2 => simp

/-- The NO2 field of the fetch result, as a function of the no2 response
alone: `None` on an exception or an empty list, else the trimmed average. -/
theorem fetch_avg_no2 (env : FetchEnv) (country_code : String) :
    (fetch_country_air_quality env country_code).avg_no2 =
      (match env.no2 country_code with
       | .ok data => if data = [] then none else calculate_average data
       | .error _ => none) := by
  unfold fetch_country_air_quality
  cases hp : env.pm25 country_code with
  | ok pdata =>
    cases hn : env.no2 country_code with
    | ok ndata =>
      by_cases hpe : pdata = [] <;> by_cases hne : ndata = [] <;>
        simp [hpe, hne]
    | error e => by_cases hpe : pdata = [] <;> simp [hpe]
  | error e =>
    cases hn : env.no2 country_code with
    | ok ndata => by_cases hne : ndata = [] <;> simp [hne]
    | error e2 => simp

/-- C8 as amended: provided every measurement value returned by the fetch
is non-negative, each average field of the AggregateResult is either absent
or non-negative (finiteness is inherent to the rational model). -/
theorem nonneg_under_nonneg_inputs (env : FetchEnv) (country_code : String)
    (hpm : ∀ data, env.pm25 country_code = .ok data → ∀ v ∈ data, 0 ≤ v)
    (hno : ∀ data, env.no2 country_code = .ok data → ∀ v ∈ data, 0 ≤ v) :
    opt_nonneg (fetch_country_air_quality env country_code).avg_pm25 ∧
    opt_nonneg (fetch_country_air_quality env country_code).avg_no2 := by
  constructor
  · rw [fetch_avg_pm25]
    cases hp : env.pm25 country_code with
    | ok data =>
      by_cases hd : data = []
      · simp [hd, opt_nonneg]
      · simpa [hd] using calculate_average_nonneg data (hpm data hp)
    | error e => simp [opt_nonneg]
  · rw [fetch_avg_no2]
    cases hn : env.no2 country_code with
    | ok data =>
      by_cases hd : data = []
      · simp [hd, opt_nonneg]
      · simpa [hd] using calculate_average_nonneg data (hno data hn)
    | error e => simp [opt_nonneg]

/-- The OpenAQ API answering with only non-negative values. -/
def env_nonneg : FetchEnv where
  pm25 := fun _ => .ok [5, 2]
  no2 := fun _ => .ok []

/-- Witness for the amended C8 at a concrete non-negative environment. -/
theorem nonneg_under_nonneg_inputs_witness :
    opt_nonneg (fetch_country_air_quality env_nonneg "DEU").avg_pm25 ∧
    opt_nonneg (fetch_country_air_quality env_nonneg "DEU").avg_no2 := by
  apply nonneg_under_nonneg_inputs
  · intro data h v hv
    simp only [env_nonneg] at h
    injection h with h
    rw [← h] at hv
    simp at hv
    rcases hv with rfl | rfl <;> norm_num
  · intro data h v hv
    simp only [env_nonneg] at h
    injection h with h
    rw [← h] at hv
    cases hv

/-- Whether a country contributes to the `successful` counter of `run_etl`. -/
def is_counted_success (env : EtlEnv) (country_code : String) : Bool :=
  match process_country env country_code with
  | .updated _ => true
  | _ => false

/-- The counter fold of `run_etl`, from any starting pair. -/
theorem etl_foldl_spec (env : EtlEnv) :
    ∀ (countries : List String) (s f : Nat),
      countries.foldl (etl_step env) (s, f) =
        (s + countries.countP (fun c => is_counted_success env c),
         f + countries.countP (fun c => !is_counted_success env c)) := by
  intro countries
  induction countries with
  | nil => intro s f; simp
  | cons c rest ih =>
    intro s f
    simp only [List.foldl_cons, List.countP_cons]
    cases hpc : process_country env c with
    | updated status =>
      rw [show etl_step env (s, f) c = (s + 1, f) by simp [etl_step, hpc]]
      rw [ih]
      simp [is_counted_success, hpc]
      omega
    | no_data =>
      rw [show etl_step env (s, f) c = (s, f + 1) by simp [etl_step, hpc]]
      rw [ih]
      simp [is_counted_success, hpc]
      omega
    | errored msg =>
      rw [show etl_step env (s, f) c = (s, f + 1) by simp [etl_step, hpc]]
      rw [ih]
      simp [is_counted_success, hpc]
      omega

/-- The run summary is the pair of success / failure counts of the list. -/
theorem run_etl_counts (env : EtlEnv) (countries : List String) :
    run_etl env countries =
      (countries.countP (fun c => is_counted_success env c),
       countries.countP (fun c => !is_counted_success env c)) := by
  simpa using etl_foldl_spec env countries 0 0

/-- A country whose fetch raised for both parameters produces the
all-`None` result. -/
theorem fetch_both_error (env : FetchEnv) (country_code : String)
    (hpm : ∃ e, env.pm25 country_code = .error e)
    (hno : ∃ e, env.no2 country_code = .error e) :
    fetch_country_air_quality env country_code =
      { avg_pm25 := none, avg_no2 := none, measurement_count := 0 } := by
  obtain ⟨e1, h1⟩ := hpm
  obtain ⟨e2, h2⟩ := hno
  simp [fetch_country_air_quality, h1, h2]

/-- OpenAQ responses for the C1 bug input: a real PM2.5 average of exactly
0.0 next to an unavailable NO2, with a healthy destination API. -/
def env_zero_avg : EtlEnv where
  pm25 := fun _ => .ok [0]
  no2 := fun _ => .error "HTTP 500 from api.openaq.org"
  update := fun _ => .ok 200

/-- C1, evaluated at the failing input: the PM2.5 average is non-null
(`some 0`), yet `run_etl` takes the no-data branch — the PATCH is skipped
and the country is counted as failed — because the Python test
`if avg_pm25 or avg_no2` uses truthiness and `0.0` is falsy. -/
theorem zero_average_skipped_bug :
    (fetch_country_air_quality env_zero_avg.toFetchEnv "DEU").avg_pm25 =
      some 0 ∧
    process_country env_zero_avg "DEU" = .no_data ∧
    run_etl env_zero_avg ["DEU"] = (0, 1) := by
  have havg : calculate_average [0] = some 0 := calculate_average_singleton 0
  have hfetch : fetch_country_air_quality env_zero_avg.toFetchEnv "DEU" =
      { avg_pm25 := some 0, avg_no2 := none, measurement_count := 0 } := by
    simp [fetch_country_air_quality, env_zero_avg, havg]
  refine ⟨by rw [hfetch], ?_, ?_⟩
  · simp [process_country, hfetch, truthy]
  · simp [run_etl, etl_step, process_country, hfetch, truthy]

/-- A destination API that always answers HTTP 500, next to a healthy
OpenAQ response with a PM2.5 average of 5. -/
def env_http500 : EtlEnv where
  pm25 := fun _ => .ok [5]
  no2 := fun _ => .error "timeout"
  update := fun _ => .ok 500

/-- C2 counterexample: on an HTTP 500 from the destination, the failure
line is logged (status and body), but the country is counted as
SUCCESSFUL, not failed: `update_supabase` returns normally on a bad status
and `run_etl` increments `successful` right after the call. -/
theorem http500_counted_successful :
    update_error_logged 500 = true ∧
    process_country env_http500 "DEU" = .updated 500 ∧
    run_etl env_http500 ["DEU"] = (1, 0) ∧
    (run_etl env_http500 ["DEU"]).2 ≠ 1 := by
  have havg : calculate_average [5] = some 5 := calculate_average_singleton 5
  have hfetch : fetch_country_air_quality env_http500.toFetchEnv "DEU" =
      { avg_pm25 := some 5, avg_no2 := none, measurement_count := 0 } := by
    simp [fetch_country_air_quality, env_http500, havg]
  have hupd : env_http500.update "DEU" = .ok 500 := rfl
  have hproc : process_country env_http500 "DEU" = .updated 500 := by
    simp [process_country, hfetch, truthy, hupd]
  have hrun : run_etl env_http500 ["DEU"] = (1, 0) := by
    simp [run_etl, etl_step, hproc]
  exact ⟨rfl, hproc, hrun, by rw [hrun]; simp⟩

/-- C2 as amended: when the averages of the country pass the update gate, the
PATCH is issued and — whatever the destination answers, including any
non-success status, which is logged with status code and response body —
the country is counted as successful in the final summary. -/
theorem http500_logged_but_successful (env : EtlEnv) (country_code : String)
    (status : Nat)
    (htruthy :
      (truthy (fetch_country_air_quality env.toFetchEnv country_code).avg_pm25
        || truthy
          (fetch_country_air_quality env.toFetchEnv country_code).avg_no2) =
        true)
    (hupd : env.update country_code = .ok status)
    (hs : ¬(status = 200 ∨ status = 201 ∨ status = 204)) :
    update_error_logged status = true ∧
    process_country env country_code = .updated status ∧
    run_etl env [country_code] = (1, 0) := by
  have hlog : update_error_logged status = true := by
    simp only [update_error_logged, Bool.not_eq_true']
    simp only [Bool.or_eq_false_iff, beq_eq_false_iff_ne]
    omega
  have hproc : process_country env country_code = .updated status := by
    simp [process_country, htruthy, hupd]
  exact ⟨hlog, hproc, by simp [run_etl, etl_step, hproc]⟩

/-- Witness for the amended C2 at the HTTP 500 environment. -/
theorem http500_logged_but_successful_witness :
    update_error_logged 500 = true ∧
    process_country env_http500 "DEU" = .updated 500 ∧
    run_etl env_http500 ["DEU"] = (1, 0) := by
  apply http500_logged_but_successful env_http500 "DEU" 500
  · have havg : calculate_average [5] = some 5 := calculate_average_singleton 5
    have hfetch : fetch_country_air_quality env_http500.toFetchEnv "DEU" =
        { avg_pm25 := some 5, avg_no2 := none, measurement_count := 0 } := by
      simp [fetch_country_air_quality, env_http500, havg]
    simp [hfetch, truthy]
  · rfl
  · omega

/-- C4: if the list contains the failing country exactly once, that
fetch of that country raises for both parameters, and every other country of the
list yields a passing average and a destination call that returns, then the
summary is exactly `(total − 1, 1)` — the failing country is counted failed
once and no exception escapes the loop (`run_etl` is a total function: the
country-boundary handler turns every raised exception into `failed += 1`
and the loop continues). -/
theorem country_isolation (env : EtlEnv) (countries : List String)
    (c0 : String) (hcount : countries.count c0 = 1)
    (hpm : ∃ e, env.pm25 c0 = .error e)
    (hno : ∃ e, env.no2 c0 = .error e)
    (hok : ∀ c ∈ countries, c ≠ c0 →
      (truthy (fetch_country_air_quality env.toFetchEnv c).avg_pm25
        || truthy (fetch_country_air_quality env.toFetchEnv c).avg_no2) =
        true ∧
      ∃ s, env.update c = .ok s) :
    run_etl env countries = (countries.length - 1, 1) := by
  have hfail : is_counted_success env c0 = false := by
    have hf := fetch_both_error env.toFetchEnv c0 hpm hno
    simp [is_counted_success, process_country, hf, truthy]
  have hsucc : ∀ c ∈ countries, c ≠ c0 → is_counted_success env c = true := by
    intro c hc hne
    obtain ⟨ht, s, hs⟩ := hok c hc hne
    simp [is_counted_success, process_country, ht, hs]
  have hnot : countries.countP (fun c => !is_counted_success env c) = 1 := by
    have hcongr : countries.countP (fun c => !is_counted_success env c) =
        countries.countP (fun c => c == c0) := by
      apply List.countP_congr
      intro c hc
      by_cases hne : c = c0
      · subst hne
        simp [hfail]
      · simp [hsucc c hc hne, hne]
    rw [hcongr, ← List.count_eq_countP, ← hcount]
  have hsplit := countP_split (fun c => is_counted_success env c) countries
  have hfst : countries.countP (fun c => is_counted_success env c) =
      countries.length - 1 := by omega
  rw [run_etl_counts, hfst, hnot]

/-- A batch of three countries where only the fetch for POL raises (both
parameters), the others answer with data, and the destination accepts. -/
def env_isolation : EtlEnv where
  pm25 := fun c => if c = "POL" then .error "request timeout" else .ok [5]
  no2 := fun c => if c = "POL" then .error "request timeout" else .ok []
  update := fun _ => .ok 204

/-- Witness for C4 on `["DEU", "POL", "FRA"]` with POL failing: the
summary is `(2, 1)`. -/
theorem country_isolation_witness :
    run_etl env_isolation ["DEU", "POL", "FRA"] =
      (["DEU", "POL", "FRA"].length - 1, 1) := by
  apply country_isolation env_isolation ["DEU", "POL", "FRA"] "POL"
  · rfl
  · exact ⟨"request timeout", rfl⟩
  · exact ⟨"request timeout", rfl⟩
  · intro c hc hne
    have havg : calculate_average [5] = some 5 := calculate_average_singleton 5
    have hfetch : ∀ d : String, d ≠ "POL" →
        fetch_country_air_quality env_isolation.toFetchEnv d =
          { avg_pm25 := some 5, avg_no2 := none, measurement_count := 0 } := by
      intro d hd
      simp [fetch_country_air_quality, env_isolation, hd, havg]
    refine ⟨?_, 204, ?_⟩
    · rw [hfetch c hne]
      simp [truthy]
    · simp [env_isolation]

/-- Any environment, for exercising the success path of `main`. -/
def env_main : EtlEnv where
  pm25 := fun _ => .ok [5]
  no2 := fun _ => .ok []
  update := fun _ => .ok 200

/-- C9: a missing secret makes `main` exit with code 1 without ever
entering `run_etl` (all network activity lives inside `run_etl`, so none
happens); when both secrets pass the check, the batch runs and `main`
falls through to exit code 0 whatever the per-country outcomes are. -/
theorem startup_and_exit_codes :
    (∀ (supabase_url supabase_key : Option String) (env : EtlEnv)
        (countries : List String),
      supabase_url = none ∨ supabase_key = none →
      main_model supabase_url supabase_key env countries = (1, false)) ∧
    (∀ (supabase_url supabase_key : Option String) (env : EtlEnv)
        (countries : List String),
      (falsy_str supabase_url || falsy_str supabase_key) = false →
      main_model supabase_url supabase_key env countries = (0, true)) := by
  constructor
  · intro url key env countries h
    rcases h with h | h <;> subst h <;>
      simp [main_model, OpenAQETL_init, falsy_str]
  · intro url key env countries h
    simp [main_model, OpenAQETL_init, h]

/-- Witness for C9: a missing URL exits `(1, no network)`; full secrets
exit 0 with the batch run. -/
theorem startup_and_exit_codes_witness :
    main_model none (some "service-key") env_main ["DEU"] = (1, false) ∧
    main_model (some "https://x.supabase.co") (some "service-key") env_main
      ["DEU"] = (0, true) :=
  ⟨startup_and_exit_codes.1 none (some "service-key") env_main ["DEU"]
    (Or.inl rfl),
   startup_and_exit_codes.2 (some "https://x.supabase.co") (some "service-key")
    env_main ["DEU"] rfl⟩

end OpenAQ
